import Mathlib

/-!
Verification development for the lazy-image-test repository.

The backend (src/backend/src/index.js) is an Express server that runs a fixed
benchmark suite comparing the lazy-image and sharp libraries on an uploaded
image; the frontend (src/frontend/src/App.jsx) renders the results.  This file
gives a shallow embedding of the benchmark configuration, the per-test runner
`runSingleTest`, the suite runner `runBenchmark`, the quality metrics
(`calculatePSNR`, `calculateMetrics`), the upload endpoint, and the frontend
memory formatter, and proves properties of them.

Conventions of the embedding:
* JavaScript numbers are modelled as `ℚ` (quantities and measurements), `ℤ`
  (heap byte counters and rounded milliseconds) or `ℝ` (the PSNR formula,
  which uses log10 and sqrt).  `JSNum` additionally models `Infinity`/`NaN`
  results of the PSNR computation.
* `null`/absent object fields are modelled as `Option.none`.
* The behaviour of external dependencies (library calls, the runtime heap
  counter, the ssim.js result, multer's upload handling) is modelled by
  explicit environment values (`TestEnv`, `BenchEnv`) and small definitions
  that follow the dependencies' documented behaviour; each is marked in its
  doc comment.
-/

namespace LazyImageBench

/-- Output image formats used by the benchmark suite. -/
inductive ImgFormat
  | webp
  | avif
  | jpeg
  | png
deriving DecidableEq, Repr

/-- The `fit` option sharp's resize is invoked with (the code only uses `inside`,
`fill` appears in `getRawData`). -/
inductive SharpFit
  | inside
  | fill
deriving DecidableEq, Repr

/-- The lazy-image pipeline a test's `lazyImageFn` builds: either a direct
`img.toFile(out, fmt, quality)` or `img.resize(w, h).toFile(out, fmt, quality)`
where the height argument may be `null` (index.js lines 299–440). -/
inductive LazyPipeline
  | toFile (fmt : ImgFormat) (quality : ℕ)
  | resizeToFile (width : ℕ) (height : Option ℕ) (fmt : ImgFormat) (quality : ℕ)
deriving DecidableEq, Repr

/-- The sharp pipeline a test's `sharpFn` builds (index.js lines 299–535). -/
inductive SharpPipeline
  | convert (fmt : ImgFormat) (quality : ℕ)
  | resizeConvert (width height : ℕ) (fit : SharpFit) (fmt : ImgFormat) (quality : ℕ)
  | pngCompress (compressionLevel : ℕ)
  | rotateJpeg (degrees quality : ℕ)
  | cropCenterJpeg (quality : ℕ)
  | blurJpeg (sigma quality : ℕ)
  | grayscaleJpeg (quality : ℕ)
deriving DecidableEq, Repr

/-- Which reference raw data `runBenchmark` passes to a test: the zero-copy
reference (the original image, prepared only for files under 50 MB), the
resize reference (sharp's own 800x600 rendering), or none (advanced tests,
index.js lines 260, 269, 280). -/
inductive RefSource
  | zeroCopyRef
  | resizeRef
  | noRef
deriving DecidableEq, Repr

/-- The configuration object passed to `runSingleTest` (index.js lines 541–553):
operation name, the two processing closures (abstracted to their pipelines),
output extension and the two `supported` flags, plus which reference data the
enclosing category supplies. -/
structure TestConfig where
  operation : String
  lazyImageFn : Option LazyPipeline
  sharpFn : Option SharpPipeline
  outputExt : String
  lazyImageSupported : Bool
  sharpSupported : Bool
  refSource : RefSource
deriving DecidableEq, Repr

/-- Format produced by a lazy-image pipeline. -/
def LazyPipeline.format : LazyPipeline → ImgFormat
  | .toFile f _ => f
  | .resizeToFile _ _ f _ => f

/-- Quality argument of a lazy-image pipeline. -/
def LazyPipeline.quality : LazyPipeline → ℕ
  | .toFile _ q => q
  | .resizeToFile _ _ _ q => q

/-- Target width of a lazy-image pipeline's resize step, when present. -/
def LazyPipeline.resizeWidth? : LazyPipeline → Option ℕ
  | .toFile _ _ => none
  | .resizeToFile w _ _ _ => some w

/-- Target height of a lazy-image pipeline's resize step (`none` when the
pipeline has no resize step or passes `null` for the height). -/
def LazyPipeline.resizeHeight? : LazyPipeline → Option ℕ
  | .toFile _ _ => none
  | .resizeToFile _ h _ _ => h

/-- Output format of a sharp pipeline (`pngCompress` writes PNG, the advanced
operations all encode JPEG at the given quality). -/
def SharpPipeline.format? : SharpPipeline → Option ImgFormat
  | .convert f _ => some f
  | .resizeConvert _ _ _ f _ => some f
  | .pngCompress _ => some .png
  | .rotateJpeg _ _ => some .jpeg
  | .cropCenterJpeg _ => some .jpeg
  | .blurJpeg _ _ => some .jpeg
  | .grayscaleJpeg _ => some .jpeg

/-- Quality argument of a sharp pipeline (`pngCompress` takes a compression
level, not a quality). -/
def SharpPipeline.quality? : SharpPipeline → Option ℕ
  | .convert _ q => some q
  | .resizeConvert _ _ _ _ q => some q
  | .pngCompress _ => none
  | .rotateJpeg _ q => some q
  | .cropCenterJpeg q => some q
  | .blurJpeg _ q => some q
  | .grayscaleJpeg q => some q

/-- Target width of a sharp pipeline's resize step, when present. -/
def SharpPipeline.resizeWidth? : SharpPipeline → Option ℕ
  | .resizeConvert w _ _ _ _ => some w
  | _ => none

/-- Target height of a sharp pipeline's resize step, when present. -/
def SharpPipeline.resizeHeight? : SharpPipeline → Option ℕ
  | .resizeConvert _ h _ _ _ => some h
  | _ => none

/-- Target width/height of the resize category (index.js lines 365–366). -/
def targetWidth : ℕ := 800

/-- Target height passed to sharp in the resize category. -/
def targetHeight : ℕ := 600

/-- WebP conversion test of the zero-copy category (index.js lines 299–316). -/
def testZeroCopyWebP : TestConfig :=
  { operation := "WebP Conversion (No Resize)"
    lazyImageFn := some (.toFile .webp 80)
    sharpFn := some (.convert .webp 80)
    outputExt := ".webp"
    lazyImageSupported := true
    sharpSupported := true
    refSource := .zeroCopyRef }

/-- AVIF conversion test of the zero-copy category (index.js lines 319–336). -/
def testZeroCopyAvif : TestConfig :=
  { operation := "AVIF Conversion (No Resize)"
    lazyImageFn := some (.toFile .avif 60)
    sharpFn := some (.convert .avif 60)
    outputExt := ".avif"
    lazyImageSupported := true
    sharpSupported := true
    refSource := .zeroCopyRef }

/-- JPEG compression test of the zero-copy category (index.js lines 339–356). -/
def testZeroCopyJpeg : TestConfig :=
  { operation := "JPEG Compression (No Resize)"
    lazyImageFn := some (.toFile .jpeg 80)
    sharpFn := some (.convert .jpeg 80)
    outputExt := ".jpg"
    lazyImageSupported := true
    sharpSupported := true
    refSource := .zeroCopyRef }

/-- Resize + WebP test (index.js lines 373–394): lazy-image resizes to width
800 with a `null` height, sharp resizes to 800x600 with `fit: inside`. -/
def testResizeWebP : TestConfig :=
  { operation := "Resize + WebP"
    lazyImageFn := some (.resizeToFile 800 none .webp 80)
    sharpFn := some (.resizeConvert 800 600 .inside .webp 80)
    outputExt := "_resize.webp"
    lazyImageSupported := true
    sharpSupported := true
    refSource := .resizeRef }

/-- Resize + AVIF test (index.js lines 397–417). -/
def testResizeAvif : TestConfig :=
  { operation := "Resize + AVIF"
    lazyImageFn := some (.resizeToFile 800 none .avif 60)
    sharpFn := some (.resizeConvert 800 600 .inside .avif 60)
    outputExt := "_resize.avif"
    lazyImageSupported := true
    sharpSupported := true
    refSource := .resizeRef }

/-- Resize + JPEG test (index.js lines 420–440). -/
def testResizeJpeg : TestConfig :=
  { operation := "Resize + JPEG"
    lazyImageFn := some (.resizeToFile 800 none .jpeg 80)
    sharpFn := some (.resizeConvert 800 600 .inside .jpeg 80)
    outputExt := "_resize.jpg"
    lazyImageSupported := true
    sharpSupported := true
    refSource := .resizeRef }

/-- PNG compression test of the advanced category (index.js lines 450–463). -/
def testPngCompression : TestConfig :=
  { operation := "PNG Compression"
    lazyImageFn := none
    sharpFn := some (.pngCompress 9)
    outputExt := ".png"
    lazyImageSupported := false
    sharpSupported := true
    refSource := .noRef }

/-- Rotation test of the advanced category (index.js lines 466–479). -/
def testRotation : TestConfig :=
  { operation := "90° Rotation"
    lazyImageFn := none
    sharpFn := some (.rotateJpeg 90 80)
    outputExt := "_rotate.jpg"
    lazyImageSupported := false
    sharpSupported := true
    refSource := .noRef }

/-- Center-crop test of the advanced category (index.js lines 482–503). -/
def testCrop : TestConfig :=
  { operation := "Crop (Center 50%)"
    lazyImageFn := none
    sharpFn := some (.cropCenterJpeg 80)
    outputExt := "_crop.jpg"
    lazyImageSupported := false
    sharpSupported := true
    refSource := .noRef }

/-- Blur test of the advanced category (index.js lines 506–519). -/
def testBlur : TestConfig :=
  { operation := "Blur (sigma: 5)"
    lazyImageFn := none
    sharpFn := some (.blurJpeg 5 80)
    outputExt := "_blur.jpg"
    lazyImageSupported := false
    sharpSupported := true
    refSource := .noRef }

/-- Grayscale test of the advanced category (index.js lines 522–535). -/
def testGrayscale : TestConfig :=
  { operation := "Grayscale"
    lazyImageFn := none
    sharpFn := some (.grayscaleJpeg 80)
    outputExt := "_gray.jpg"
    lazyImageSupported := false
    sharpSupported := true
    refSource := .noRef }

/-- The three zero-copy test configurations, in the order `runZeroCopyTests`
pushes them. -/
def zeroCopyTestConfigs : List TestConfig :=
  [testZeroCopyWebP, testZeroCopyAvif, testZeroCopyJpeg]

/-- The three resize test configurations, in the order `runResizeTests`
pushes them. -/
def resizeTestConfigs : List TestConfig :=
  [testResizeWebP, testResizeAvif, testResizeJpeg]

/-- The five advanced test configurations, in the order `runAdvancedTests`
pushes them. -/
def advancedTestConfigs : List TestConfig :=
  [testPngCompression, testRotation, testCrop, testBlur, testGrayscale]

/-- The whole fixed benchmark suite, in execution order. -/
def benchmarkSuite : List TestConfig :=
  zeroCopyTestConfigs ++ resizeTestConfigs ++ advancedTestConfigs

/-- A test runs both libraries when both `supported` flags are set and both
closures are present (the guards at index.js lines 562 and 650). -/
def bothExecuted (t : TestConfig) : Bool :=
  t.lazyImageSupported && t.sharpSupported && t.lazyImageFn.isSome && t.sharpFn.isSome

/-- The lazy-image and sharp calls of a test agree on output format, quality
setting and resize target width. -/
def matchedCall (t : TestConfig) : Bool :=
  match t.lazyImageFn, t.sharpFn with
  | some lp, some sp =>
      decide (sp.format? = some lp.format) &&
      decide (sp.quality? = some lp.quality) &&
      decide (sp.resizeWidth? = lp.resizeWidth?)
  | _, _ => true

/-- Modelled from lazy-image's documented behaviour: `resize(w, null)` scales
the image to width `w` preserving the aspect ratio.  Dimensions are kept as
exact rationals (pixel rounding ignored on both sides). -/
def lazyResizeDims (w srcW srcH : ℚ) : ℚ × ℚ :=
  (w, srcH * w / srcW)

/-- Modelled from sharp's documented behaviour: `resize(w, h, {fit: 'inside'})`
scales the image, preserving the aspect ratio, to the largest size that fits
within `w`x`h`.  Dimensions are kept as exact rationals. -/
def sharpInsideDims (w h srcW srcH : ℚ) : ℚ × ℚ :=
  if srcH * w ≤ srcW * h then (w, srcH * w / srcW) else (srcW * h / srcH, h)

/-- Round a rational to `d` decimal places, half away from negative infinity:
this models the JavaScript idiom `Math.round(x * 10^d) / 10^d` (and, at display
precision, `parseFloat(x.toFixed(d))`), since `Math.round` is
`floor(x + 0.5)`, which is Mathlib's `round`. -/
def roundTo (d : ℕ) (q : ℚ) : ℚ :=
  ((round (q * 10 ^ d) : ℤ) : ℚ) / 10 ^ d

/-- Interval, in milliseconds, of the heap polling `setInterval` in
`runSingleTest` (index.js lines 589–594 and 661–666). -/
def memoryMonitorIntervalMs : ℕ := 10

/-- Measurements of one successful library invocation, supplied by the runtime
environment: the `performance.now()` duration of the awaited processing call,
the byte length of the output file read back, the `heapUsed` reading taken
before processing, the `heapUsed` readings of the 10 ms monitor, and the
`heapUsed` reading taken right after processing. -/
structure LibOutcomeOk where
  durationMs : ℚ
  outputSize : ℕ
  initialHeapUsed : ℤ
  memSamples : List ℤ
  afterHeapUsed : ℤ
deriving DecidableEq, Repr

/-- Outcome of one library invocation: success with its measurements, or a
thrown error with its message. -/
inductive LibOutcome
  | ok (o : LibOutcomeOk)
  | err (msg : String)
deriving DecidableEq, Repr

/-- Runtime environment of one `runSingleTest` call: the outcome of each
library's processing call, the `(psnr, ssim)` pair `calculateMetrics` produces
for each library's output (`calculateMetrics` catches its own exceptions and
always yields a pair), whether the uploaded image is AVIF, and the measured
duration of the AVIF-to-JPEG pre-conversion. -/
structure TestEnv where
  lazyOutcome : LibOutcome
  sharpOutcome : LibOutcome
  lazyMetrics : ℚ × ℚ
  sharpMetrics : ℚ × ℚ
  inputIsAvif : Bool
  avifConversionMs : ℚ
deriving DecidableEq, Repr

/-- One library's entry in a test result (the `result.lazyImage` /
`result.sharp` objects of index.js lines 555–710).  `none` models both a
`null` field and an absent field. -/
structure LibResult where
  supported : Bool
  time : Option ℤ := none
  totalTime : Option ℤ := none
  avifConversionTime : Option ℤ := none
  size : Option ℕ := none
  memoryUsed : Option ℚ := none
  url : Option String := none
  psnr : Option ℚ := none
  ssim : Option ℚ := none
  error : Option String := none
deriving DecidableEq, Repr

/-- The result object `runSingleTest` returns (index.js lines 555–559, 713). -/
structure TestResult where
  operation : String
  lazyImage : LibResult
  sharp : LibResult
deriving DecidableEq, Repr

/-- The `operation.replace(/[^a-zA-Z0-9]/g, '_')` sanitisation used to build
output filenames (index.js lines 580, 652). -/
def sanitizeOp (s : String) : String :=
  String.map (fun c => if c.isAlphanum then c else '_') s

/-- Output filename of one library's output for a test. -/
def outputFilename (libTag : String) (cfg : TestConfig) : String :=
  libTag ++ sanitizeOp cfg.operation ++ cfg.outputExt

/-- URL recorded in a successful result (index.js lines 629, 699). -/
def outputUrl (sessionId filename : String) : String :=
  "/output/" ++ sessionId ++ "/" ++ filename

/-- Peak heap during processing (index.js lines 588–604): the running maximum
starts at the pre-processing reading, is updated by each monitor sample, and
is finally compared with the post-processing reading. -/
def peakHeap (o : LibOutcomeOk) : ℤ :=
  max (o.memSamples.foldl max o.initialHeapUsed) o.afterHeapUsed

/-- The `memoryUsed` field of a successful result (index.js lines 605, 628):
`Math.max(0, Math.round(memoryUsed / 1024 / 1024 * 100) / 100)` where
`memoryUsed` is the peak heap minus the pre-processing reading. -/
def memoryUsedMB (o : LibOutcomeOk) : ℚ :=
  max 0 (roundTo 2 (((peakHeap o - o.initialHeapUsed : ℤ) : ℚ) / 1024 / 1024))

/-- The error record `runSingleTest` stores when a library's processing throws
(index.js lines 640–645 and 704–709): the `supported` flag, the error message,
and explicit `null` time and size. -/
def errorResult (msg : String) : LibResult :=
  { supported := true, error := some msg }

/-- The successful lazy-image record (index.js lines 620–631): rounded elapsed
time, total time including any AVIF pre-conversion, output size, clamped peak
memory delta, output URL, and — only when reference raw data was supplied —
the spread of the `calculateMetrics` pair. -/
def lazyOkResult (sessionId : String) (refAvailable : Bool) (cfg : TestConfig)
    (env : TestEnv) (o : LibOutcomeOk) : LibResult :=
  let conv : ℚ := if env.inputIsAvif then env.avifConversionMs else 0
  { supported := true
    time := some (round o.durationMs)
    totalTime := some (round o.durationMs + (if 0 < conv then round conv else 0))
    avifConversionTime := if 0 < conv then some (round conv) else none
    size := some o.outputSize
    memoryUsed := some (memoryUsedMB o)
    url := some (outputUrl sessionId (outputFilename "lazyimage_" cfg))
    psnr := if refAvailable then some env.lazyMetrics.1 else none
    ssim := if refAvailable then some env.lazyMetrics.2 else none }

/-- The successful sharp record (index.js lines 692–701). -/
def sharpOkResult (sessionId : String) (refAvailable : Bool) (cfg : TestConfig)
    (env : TestEnv) (o : LibOutcomeOk) : LibResult :=
  { supported := true
    time := some (round o.durationMs)
    size := some o.outputSize
    memoryUsed := some (memoryUsedMB o)
    url := some (outputUrl sessionId (outputFilename "sharp_" cfg))
    psnr := if refAvailable then some env.sharpMetrics.1 else none
    ssim := if refAvailable then some env.sharpMetrics.2 else none }

/-- Embedding of `runSingleTest` (index.js lines 541–714).  The result starts
as `{operation, lazyImage: {supported}, sharp: {supported}}`; each library's
entry is replaced only when its `supported` flag and closure are both present,
by the success record or, when the processing call throws, the caught error
record. -/
def runSingleTest (sessionId : String) (refAvailable : Bool) (cfg : TestConfig)
    (env : TestEnv) : TestResult :=
  { operation := cfg.operation
    lazyImage :=
      if cfg.lazyImageSupported && cfg.lazyImageFn.isSome then
        match env.lazyOutcome with
        | .ok o => lazyOkResult sessionId refAvailable cfg env o
        | .err msg => errorResult msg
      else { supported := cfg.lazyImageSupported }
    sharp :=
      if cfg.sharpSupported && cfg.sharpFn.isSome then
        match env.sharpOutcome with
        | .ok o => sharpOkResult sessionId refAvailable cfg env o
        | .err msg => errorResult msg
      else { supported := cfg.sharpSupported } }

/-- The `original` block of the benchmark response (index.js lines 245–251). -/
structure OriginalInfo where
  filename : String
  size : ℕ
  width : ℕ
  height : ℕ
  format : String
deriving DecidableEq, Repr

/-- One category block of the benchmark response (index.js lines 261–286). -/
structure Category where
  name : String
  description : String
  highlight : Option String
  results : List TestResult
deriving DecidableEq, Repr

/-- The benchmark response object (index.js lines 244–257). -/
structure BenchResults where
  original : OriginalInfo
  versions : String × String
  categories : List Category
deriving DecidableEq, Repr

/-- Runtime environment of a whole benchmark run: the session id, the original
file's metadata, the reported library versions, whether each reference raw
data was successfully prepared (the zero-copy reference is skipped for files
of 50 MB or more and both preparations may throw, index.js lines 224–242),
and the per-test environments, indexed by suite position. -/
structure BenchEnv where
  sessionId : String
  original : OriginalInfo
  lazyImageVersion : String
  sharpVersion : String
  zeroCopyRefAvailable : Bool
  resizeRefAvailable : Bool
  testEnvs : ℕ → TestEnv

/-- Embedding of `runZeroCopyTests` (index.js lines 292–359): three
`runSingleTest` calls sharing the zero-copy reference data. -/
def runZeroCopyTests (sessionId : String) (refAvailable : Bool)
    (e₀ e₁ e₂ : TestEnv) : List TestResult :=
  [ runSingleTest sessionId refAvailable testZeroCopyWebP e₀
  , runSingleTest sessionId refAvailable testZeroCopyAvif e₁
  , runSingleTest sessionId refAvailable testZeroCopyJpeg e₂ ]

/-- Embedding of `runResizeTests` (index.js lines 362–443): three
`runSingleTest` calls sharing the resize reference data. -/
def runResizeTests (sessionId : String) (refAvailable : Bool)
    (e₀ e₁ e₂ : TestEnv) : List TestResult :=
  [ runSingleTest sessionId refAvailable testResizeWebP e₀
  , runSingleTest sessionId refAvailable testResizeAvif e₁
  , runSingleTest sessionId refAvailable testResizeJpeg e₂ ]

/-- Embedding of `runAdvancedTests` (index.js lines 446–538): five
`runSingleTest` calls with no reference data (the call sites pass no `refRaw`
field at all, so metrics are always skipped for this category). -/
def runAdvancedTests (sessionId : String) (e₀ e₁ e₂ e₃ e₄ : TestEnv) :
    List TestResult :=
  [ runSingleTest sessionId false testPngCompression e₀
  , runSingleTest sessionId false testRotation e₁
  , runSingleTest sessionId false testCrop e₂
  , runSingleTest sessionId false testBlur e₃
  , runSingleTest sessionId false testGrayscale e₄ ]

/-- Embedding of `runBenchmark` (index.js lines 214–289): the response carries
the original file's metadata, the two library versions, and the three fixed
categories in order, each built from its test runner. -/
def runBenchmark (env : BenchEnv) : BenchResults :=
  { original := env.original
    versions := (env.lazyImageVersion, env.sharpVersion)
    categories :=
      [ { name := "Zero-Copy Conversion (No Resize)"
          description := "lazy-image\x27s strength: Direct conversion without copying pixel buffers"
          highlight := some "lazyImage"
          results := runZeroCopyTests env.sessionId env.zeroCopyRefAvailable
            (env.testEnvs 0) (env.testEnvs 1) (env.testEnvs 2) }
      , { name := "Resize + Format Conversion"
          description := "Common features: Resize to 800x600, then convert to each format"
          highlight := none
          results := runResizeTests env.sessionId env.resizeRefAvailable
            (env.testEnvs 3) (env.testEnvs 4) (env.testEnvs 5) }
      , { name := "Advanced Image Operations"
          description := "sharp\x27s strength: Advanced operations not supported by lazy-image"
          highlight := some "sharp"
          results := runAdvancedTests env.sessionId
            (env.testEnvs 6) (env.testEnvs 7) (env.testEnvs 8)
            (env.testEnvs 9) (env.testEnvs 10) } ] }

/-- A JavaScript number as produced by the PSNR computation: a finite value,
`Infinity`, or `NaN`. -/
inductive JSNum
  | num (x : ℝ)
  | posInf
  | nan

/-- Mean squared error of two equal-length pixel arrays: the loop of
`calculatePSNR` (index.js lines 167–174) followed by the division by the
length.  For empty arrays the JavaScript division is `0/0 = NaN`, which the
caller handles separately; here the Lean convention gives `0`. -/
def mse (rd td : List ℚ) : ℚ :=
  (((List.zip rd td).map fun p => (p.1 - p.2) ^ 2).sum) / rd.length

/-- The finite PSNR formula `20 * Math.log10(255 / Math.sqrt(mse))`
(index.js line 178). -/
noncomputable def psnrFormula (m : ℚ) : ℝ :=
  20 * Real.logb 10 (255 / Real.sqrt (m : ℝ))

/-- Embedding of `calculatePSNR` (index.js lines 162–179).  A missing array or
a length mismatch returns `0`; otherwise the mean squared error is computed
over the common length.  When both arrays are empty, JavaScript computes
`mse = 0/0 = NaN`, so `mse === 0` is false and the formula propagates `NaN`
(`Math.sqrt(NaN)` is `NaN`); that branch is made explicit here.  A zero mean
squared error returns `Infinity`, and otherwise the result is the finite
PSNR formula. -/
noncomputable def calculatePSNR (refData targetData : Option (List ℚ)) : JSNum :=
  match refData, targetData with
  | some rd, some td =>
      if rd.length ≠ td.length then .num 0
      else if rd.length = 0 then .nan
      else if mse rd td = 0 then .posInf
      else .num (psnrFormula (mse rd td))
  | _, _ => .num 0

/-- The object ssim.js returns, restricted to the field the code reads
(`ssimResult.mssim`, index.js line 201).  The library computes no PSNR. -/
structure SsimOut where
  mssim : ℚ
deriving DecidableEq, Repr

/-- Rounding of a real to `d` decimal places, modelling
`parseFloat(x.toFixed(d))` on the real-valued PSNR. -/
noncomputable def roundToR (d : ℕ) (x : ℝ) : ℝ :=
  ((round (x * 10 ^ d) : ℤ) : ℝ) / 10 ^ d

/-- How `calculateMetrics` reports the PSNR value (index.js line 200):
`Infinity` as the conventional `100` dB, otherwise the value to two decimal
places (`NaN.toFixed(2)` parses back to `NaN`). -/
noncomputable def jsPsnrReport : JSNum → JSNum
  | .posInf => .num 100
  | .nan => .nan
  | .num x => .num (roundToR 2 x)

/-- The `{psnr, ssim}` object of a successful `calculateMetrics` call. -/
structure MetricsResult where
  psnr : JSNum
  ssim : ℚ

/-- Embedding of the successful path of `calculateMetrics` (index.js lines
181–211): the PSNR is computed by this repository's own `calculatePSNR` on the
two raw arrays and reported per `jsPsnrReport`; the SSIM is the `mssim` field
of the ssim.js result, to four decimal places.  (The surrounding `try/catch`
returns `{psnr: 0, ssim: 0}` when anything throws.) -/
noncomputable def calculateMetrics (refData targetData : List ℚ)
    (ssimResult : SsimOut) : MetricsResult :=
  { psnr :=
      match calculatePSNR (some refData) (some targetData) with
      | .posInf => .num 100
      | .nan => .nan
      | .num x => .num (roundToR 2 x)
    ssim := roundTo 4 ssimResult.mssim }

/-- One uploaded file as multer sees it: form field name, MIME type from the
part headers, and size in bytes. -/
structure UploadFile where
  fieldname : String
  mimetype : String
  size : ℕ
deriving DecidableEq, Repr

/-- The MIME allowlist of the multer `fileFilter` (index.js line 130). -/
def allowedTypes : List String :=
  ["image/jpeg", "image/png", "image/webp", "image/avif"]

/-- The multer `limits.fileSize` value, 10 GiB (index.js line 128). -/
def fileSizeLimit : ℕ := 10 * 1024 * 1024 * 1024

/-- The error message of the `fileFilter` rejection (index.js line 134). -/
def invalidTypeMsg : String :=
  "Invalid file type. Only JPEG, PNG, WebP, AVIF are allowed."

/-- Outcome of `upload.single('image')` on a request. -/
inductive MulterOutcome
  | ok (file : Option UploadFile)
  | filterError (msg : String)
  | limitFileSize
  | limitUnexpectedFile
deriving DecidableEq, Repr

/-- Modelled from multer's documented behaviour for
`upload.single('image')` with the repository's `fileFilter` and `limits`
(index.js lines 126–137): files are processed in arrival order; a file on
another field or a second file aborts with `LIMIT_UNEXPECTED_FILE`; the
`fileFilter` rejects a disallowed MIME type when the file's headers arrive,
before any data is streamed, so the size limit (`LIMIT_FILE_SIZE`, triggered
while streaming an accepted file that exceeds `limits.fileSize`) is only ever
reached by files the filter accepted. -/
def multerSingleImage : List UploadFile → MulterOutcome
  | [] => .ok none
  | f :: rest =>
      if f.fieldname ≠ "image" then .limitUnexpectedFile
      else if ¬ f.mimetype ∈ allowedTypes then .filterError invalidTypeMsg
      else if fileSizeLimit < f.size then .limitFileSize
      else
        match rest with
        | [] => .ok (some f)
        | _ :: _ => .limitUnexpectedFile

/-- Response of the `POST /api/benchmark` route, up to the point where the
benchmark starts. -/
inductive EndpointResponse
  | benchmarkRun (file : UploadFile)
  | jsonError (status : ℕ) (error : String)
deriving DecidableEq, Repr

/-- Embedding of the `POST /api/benchmark` handler chain (index.js lines
717–755): multer errors are mapped to their statuses and messages, a missing
file gets `400 No image uploaded`, and otherwise the benchmark runs on the
stored file. -/
def benchmarkEndpoint (files : List UploadFile) : EndpointResponse :=
  match multerSingleImage files with
  | .limitFileSize => .jsonError 413 "File size too large. Maximum size is 10GB."
  | .limitUnexpectedFile => .jsonError 400 "Unexpected file field."
  | .filterError m => .jsonError 400 m
  | .ok none => .jsonError 400 "No image uploaded"
  | .ok (some f) => .benchmarkRun f

/-- Input of the frontend's `formatMemory` (App.jsx lines 11–34): `null` (or
`undefined`, which `== null` also catches), `NaN`, or a number of megabytes. -/
inductive MemInput
  | null
  | nan
  | num (m : ℚ)
deriving DecidableEq, Repr

/-- Display form produced by `formatMemory`: each constructor carries the
already-rounded quantity interpolated into the displayed string. -/
inductive MemDisplay
  | dash
  | subTenthKB
  | kb (v : ℚ)
  | mb (v : ℚ)
  | gb (v : ℚ)
deriving DecidableEq, Repr

/-- Embedding of `formatMemory` (App.jsx lines 11–34): `-` for `null`/`NaN`;
negative values are clamped to `0` (the local `memory = Math.max(0, memoryMB)`
is inlined here); below 0.0001 MB the literal `< 0.1 KB`;
below 0.1 MB the KB rendering (at least 0.1 KB, one decimal); below 1024 MB
the MB rendering (two decimals); otherwise the GB rendering (two decimals). -/
def formatMemory : MemInput → MemDisplay
  | .null => .dash
  | .nan => .dash
  | .num m =>
      if max 0 m < 1 / 10000 then .subTenthKB
      else if max 0 m < 1 / 10 then .kb (roundTo 1 (max (1 / 10) (max 0 m * 1024)))
      else if max 0 m < 1024 then .mb (roundTo 2 (max 0 m))
      else .gb (roundTo 2 (max 0 m / 1024))

/-- A displayed memory quantity is non-negative (the `dash` and `subTenthKB`
renderings carry no number; `< 0.1 KB` shows the positive literal 0.1). -/
def MemDisplay.nonNeg : MemDisplay → Prop
  | .dash => True
  | .subTenthKB => True
  | .kb v => 0 ≤ v
  | .mb v => 0 ≤ v
  | .gb v => 0 ≤ v

/-- Peak heap as the specification describes it: the maximum of the sampled
values and the post-processing reading (without folding in the
pre-processing reading). -/
def specPeakHeap (o : LibOutcomeOk) : ℤ :=
  o.memSamples.foldl max o.afterHeapUsed

/-- Peak memory delta as the specification describes it: the peak of the
sampled values and the post-processing reading, minus the pre-processing
reading, converted to MB at two decimals and clamped at zero. -/
def specMemoryDelta (o : LibOutcomeOk) : ℚ :=
  max 0 (roundTo 2 (((specPeakHeap o - o.initialHeapUsed : ℤ) : ℚ) / 1024 / 1024))

/-- A successful test environment with concrete measurements, used to
instantiate theorems on a concrete run. -/
def okOutcome : LibOutcomeOk :=
  { durationMs := 5
    outputSize := 1234
    initialHeapUsed := 0
    memSamples := [2097152]
    afterHeapUsed := 1048576 }

/-- A test environment in which both libraries succeed. -/
def okTestEnv : TestEnv :=
  { lazyOutcome := .ok okOutcome
    sharpOutcome := .ok okOutcome
    lazyMetrics := (30, 9 / 10)
    sharpMetrics := (31, 8 / 10)
    inputIsAvif := false
    avifConversionMs := 0 }

/-- A test environment in which the lazy-image call throws and sharp
succeeds. -/
def lazyErrTestEnv : TestEnv :=
  { okTestEnv with lazyOutcome := .err "boom" }

/-- A benchmark environment in which every operation succeeds and both
references were prepared. -/
def allOkBenchEnv : BenchEnv :=
  { sessionId := "sess"
    original := { filename := "in.png", size := 1000, width := 640, height := 480, format := "png" }
    lazyImageVersion := "0.9.0"
    sharpVersion := "0.33.0"
    zeroCopyRefAvailable := true
    resizeRefAvailable := true
    testEnvs := fun _ => okTestEnv }

/-- A benchmark environment in which every library call throws. -/
def allErrBenchEnv : BenchEnv :=
  { allOkBenchEnv with
    testEnvs := fun _ =>
      { okTestEnv with lazyOutcome := .err "boom", sharpOutcome := .err "crash" } }

/-! ### Helper lemmas -/

/-- Rounding is monotone (`round x = ⌊x + 1/2⌋`). -/
theorem round_monotone {q r : ℚ} (h : q ≤ r) : round q ≤ round r := by
  rw [round_eq, round_eq]
  exact Int.floor_le_floor (by linarith)

/-- Rounding to `d` decimals preserves non-negativity. -/
theorem roundTo_nonneg (d : ℕ) {q : ℚ} (h : 0 ≤ q) : 0 ≤ roundTo d q := by
  have h1 : (0 : ℤ) ≤ round (q * 10 ^ d) := by
    have h2 := round_monotone (show (0 : ℚ) ≤ q * 10 ^ d by positivity)
    simpa using h2
  unfold roundTo
  apply div_nonneg _ (by positivity)
  exact_mod_cast h1

/-- Rounding to `d` decimals preserves non-positivity. -/
theorem roundTo_nonpos (d : ℕ) {q : ℚ} (h : q ≤ 0) : roundTo d q ≤ 0 := by
  have h1 : round (q * 10 ^ d) ≤ (0 : ℤ) := by
    have h2 := round_monotone (show q * 10 ^ d ≤ 0 by
      apply mul_nonpos_of_nonpos_of_nonneg h (by positivity))
    simpa using h2
  unfold roundTo
  rw [div_nonpos_iff]
  right
  exact ⟨by exact_mod_cast h1, by positivity⟩

/-- Folding `max` over a list commutes with taking a final `max`. -/
theorem foldl_max_right (l : List ℤ) :
    ∀ a b : ℤ, max (l.foldl max a) b = l.foldl max (max a b) := by
  induction l with
  | nil => intro a b; rfl
  | cons x t ih =>
      intro a b
      simp only [List.foldl_cons]
      rw [ih, sup_right_comm]

/-- The seed of a `max` fold can be split off. -/
theorem foldl_max_sup (l : List ℤ) :
    ∀ a b : ℤ, l.foldl max (max a b) = max a (l.foldl max b) := by
  induction l with
  | nil => intro a b; rfl
  | cons x t ih =>
      intro a b
      simp only [List.foldl_cons]
      rw [max_assoc, ih]

/-- The code's running peak (seeded with the pre-processing reading) is the
pre-processing reading joined with the peak over samples and post reading. -/
theorem peakHeap_eq (o : LibOutcomeOk) :
    peakHeap o = max o.initialHeapUsed (specPeakHeap o) := by
  unfold peakHeap specPeakHeap
  rw [foldl_max_right, foldl_max_sup]

/-- The mean squared error of a list against itself is zero. -/
theorem mse_self (l : List ℚ) : mse l l = 0 := by
  have h : ((List.zip l l).map fun p => (p.1 - p.2) ^ 2).sum = 0 := by
    induction l with
    | nil => rfl
    | cons a t ih => simp [List.zip_cons_cons, ih]
  unfold mse
  rw [h, zero_div]

/-- `calculatePSNR` on a nonempty list against itself hits the zero-MSE
branch and returns `Infinity`. -/
theorem calculatePSNR_eq (rd td : List ℚ) :
    calculatePSNR (some rd) (some td) =
      if rd.length ≠ td.length then .num 0
      else if rd.length = 0 then .nan
      else if mse rd td = 0 then .posInf
      else .num (psnrFormula (mse rd td)) := rfl

theorem calculatePSNR_self (rd : List ℚ) (h : rd ≠ []) :
    calculatePSNR (some rd) (some rd) = .posInf := by
  rw [calculatePSNR_eq,
    if_neg (by simp), if_neg (by simpa [List.length_eq_zero] using h),
    if_pos (mse_self rd)]

/-- A test run with no reference data never records metrics, whatever the
outcomes. -/
theorem runSingleTest_noRef_metrics (sid : String) (cfg : TestConfig)
    (env : TestEnv) :
    ((runSingleTest sid false cfg env).lazyImage.psnr,
      (runSingleTest sid false cfg env).lazyImage.ssim,
      (runSingleTest sid false cfg env).sharp.psnr,
      (runSingleTest sid false cfg env).sharp.ssim) =
      (none, none, none, none) := by
  rcases hl : env.lazyOutcome with o | m <;>
    rcases hs : env.sharpOutcome with o' | m' <;>
    rcases hbl : cfg.lazyImageSupported && cfg.lazyImageFn.isSome <;>
    rcases hbs : cfg.sharpSupported && cfg.sharpFn.isSome <;>
    simp [runSingleTest, hl, hs, hbl, hbs, lazyOkResult, sharpOkResult,
      errorResult]

/-! ### Claims -/

/-- C1: for every benchmark operation executed by both libraries, the
lazy-image call and the sharp call use the same output format and the same
quality setting (WebP 80, AVIF 60, JPEG 80) and the same resize target width;
and whenever the source aspect ratio is at least 4:3 the two resize semantics
produce identical output dimensions.  (Amended: the resize-category calls do
not share a full target size — lazy-image gets width 800 with a `null`
height while sharp gets 800x600 `fit: inside` — so output dimensions agree
only for aspect ratios of at least 4:3; see `C1_counterexample`.) -/
theorem C1_theorem :
    (benchmarkSuite.all fun t => !bothExecuted t || matchedCall t) = true ∧
    (∀ srcW srcH : ℚ, 0 < srcW → 0 < srcH →
      srcH * (targetWidth : ℚ) ≤ srcW * (targetHeight : ℚ) →
      lazyResizeDims (targetWidth : ℚ) srcW srcH =
        sharpInsideDims (targetWidth : ℚ) (targetHeight : ℚ) srcW srcH) := by
  refine ⟨by decide, ?_⟩
  intro srcW srcH _ _ h
  unfold lazyResizeDims sharpInsideDims
  rw [if_pos h]

/-- C1 witness: a 800x600 source (aspect exactly 4:3) satisfies the
hypotheses and both resize semantics give the same dimensions. -/
theorem C1_witness :
    (0 : ℚ) < 800 ∧ (0 : ℚ) < 600 ∧
      (600 : ℚ) * (targetWidth : ℚ) ≤ 800 * (targetHeight : ℚ) ∧
      lazyResizeDims (targetWidth : ℚ) 800 600 =
        sharpInsideDims (targetWidth : ℚ) (targetHeight : ℚ) 800 600 :=
  ⟨by norm_num, by norm_num, by norm_num [targetWidth, targetHeight],
    C1_theorem.2 800 600 (by norm_num) (by norm_num)
      (by norm_num [targetWidth, targetHeight])⟩

/-- C1 counterexample: in the resize category the two calls do not share
target dimensions — lazy-image's height argument is `null` while sharp's is
600 — and on a 600x1200 source the modelled outputs are 800x1600
(lazy-image) versus 300x600 (sharp), so the outputs' width and height are
not identical. -/
theorem C1_counterexample :
    testResizeWebP.lazyImageFn = some (.resizeToFile 800 none .webp 80) ∧
    testResizeWebP.sharpFn = some (.resizeConvert 800 600 .inside .webp 80) ∧
    (testResizeWebP.lazyImageFn.map LazyPipeline.resizeHeight? ≠
      testResizeWebP.sharpFn.map SharpPipeline.resizeHeight?) ∧
    lazyResizeDims 800 600 1200 = (800, 1600) ∧
    sharpInsideDims 800 600 600 1200 = (300, 600) ∧
    lazyResizeDims 800 600 1200 ≠ sharpInsideDims 800 600 600 1200 := by
  have hlazy : lazyResizeDims 800 600 1200 = (800, 1600) := by
    norm_num [lazyResizeDims, Prod.ext_iff]
  have hsharp : sharpInsideDims 800 600 600 1200 = (300, 600) := by
    unfold sharpInsideDims
    rw [if_neg (by norm_num)]
    norm_num [Prod.ext_iff]
  refine ⟨rfl, rfl, by decide, hlazy, hsharp, ?_⟩
  rw [hlazy, hsharp]
  intro h
  have h1 := congrArg Prod.fst h
  norm_num at h1

/-- C5: every benchmark run returns exactly three categories in this fixed
order, with these names and with 3, 3 and 5 operations respectively,
independently of the uploaded image and of every runtime outcome. -/
theorem C5_theorem (env : BenchEnv) :
    ((runBenchmark env).categories.map Category.name =
      ["Zero-Copy Conversion (No Resize)", "Resize + Format Conversion",
        "Advanced Image Operations"]) ∧
    ((runBenchmark env).categories.map fun c => c.results.length) = [3, 3, 5] ∧
    ((runBenchmark env).categories.map fun c =>
        c.results.map TestResult.operation) =
      [["WebP Conversion (No Resize)", "AVIF Conversion (No Resize)",
          "JPEG Compression (No Resize)"],
        ["Resize + WebP", "Resize + AVIF", "Resize + JPEG"],
        ["PNG Compression", "90° Rotation", "Crop (Center 50%)",
          "Blur (sigma: 5)", "Grayscale"]] :=
  ⟨rfl, rfl, rfl⟩

/-- C6: the advanced category is sharp-only — its five operations are PNG
compression, 90° rotation, center crop, blur and grayscale, each configured
with `lazyImageSupported: false` and no lazy-image closure, and in every run
its results carry the untouched `{supported: false}` lazy-image record, so
the lazy-image library is never invoked there. -/
theorem C6_theorem (env : BenchEnv) :
    advancedTestConfigs.map TestConfig.operation =
      ["PNG Compression", "90° Rotation", "Crop (Center 50%)",
        "Blur (sigma: 5)", "Grayscale"] ∧
    (advancedTestConfigs.all fun t =>
      !t.lazyImageSupported && t.lazyImageFn.isNone) = true ∧
    ((runBenchmark env).categories.get? 2).map
        (fun c => c.results.map TestResult.lazyImage) =
      some (List.replicate 5 { supported := false }) :=
  ⟨rfl, by decide, rfl⟩

/-- C4: failure handling is catch-and-report per operation — when a library's
processing call throws, that library's entry becomes the caught error record
(the message with null time and null size), the other library's test for the
same operation still runs and yields its normal record, and every benchmark
run returns a result entry for every operation of the suite, whatever the
outcomes. -/
theorem C4_theorem :
    (∀ msg, (errorResult msg).error = some msg ∧ (errorResult msg).time = none ∧
      (errorResult msg).size = none) ∧
    (∀ sid refAvailable cfg env msg,
      cfg.lazyImageSupported = true → cfg.lazyImageFn.isSome = true →
      env.lazyOutcome = .err msg →
      (runSingleTest sid refAvailable cfg env).lazyImage = errorResult msg) ∧
    (∀ sid refAvailable cfg env msg,
      cfg.sharpSupported = true → cfg.sharpFn.isSome = true →
      env.sharpOutcome = .err msg →
      (runSingleTest sid refAvailable cfg env).sharp = errorResult msg) ∧
    (∀ sid refAvailable cfg env msg o,
      env.lazyOutcome = .err msg →
      cfg.sharpSupported = true → cfg.sharpFn.isSome = true →
      env.sharpOutcome = .ok o →
      (runSingleTest sid refAvailable cfg env).sharp =
        sharpOkResult sid refAvailable cfg env o) ∧
    (∀ env : BenchEnv,
      ((runBenchmark env).categories.map fun c => c.results.length) =
        [3, 3, 5]) := by
  refine ⟨fun msg => ⟨rfl, rfl, rfl⟩, ?_, ?_, ?_, fun env => rfl⟩
  · intro sid refAvailable cfg env msg h1 h2 h3
    simp [runSingleTest, h1, h2, h3]
  · intro sid refAvailable cfg env msg h1 h2 h3
    simp [runSingleTest, h1, h2, h3]
  · intro sid refAvailable cfg env msg o h1 h2 h3 h4
    simp [runSingleTest, h2, h3, h4]

/-- C4 witness: with a lazy-image call that throws "boom" and a successful
sharp call, the WebP zero-copy test records the error for lazy-image, the
full sharp record for sharp, and a benchmark run in which every call throws
still yields 3 + 3 + 5 result entries. -/
theorem C4_witness :
    (runSingleTest "s" true testZeroCopyWebP lazyErrTestEnv).lazyImage =
      errorResult "boom" ∧
    (runSingleTest "s" true testZeroCopyWebP lazyErrTestEnv).sharp =
      sharpOkResult "s" true testZeroCopyWebP lazyErrTestEnv okOutcome ∧
    ((runBenchmark allErrBenchEnv).categories.map fun c => c.results.length) =
      [3, 3, 5] := by
  obtain ⟨-, h2, -, h4, h5⟩ := C4_theorem
  exact ⟨h2 "s" true testZeroCopyWebP lazyErrTestEnv "boom" rfl rfl rfl,
    h4 "s" true testZeroCopyWebP lazyErrTestEnv "boom" okOutcome rfl rfl rfl rfl,
    h5 allErrBenchEnv⟩

/-- C7: the memory-monitor interval is 10 ms, the recorded peak memory delta
equals the claimed formula — the maximum of the sampled heap values and the
post-processing reading, minus the pre-processing reading, converted to MB
(two decimals) and clamped at zero — and consequently every `memoryUsed`
field any result carries is non-negative. -/
theorem C7_theorem :
    memoryMonitorIntervalMs = 10 ∧
    (∀ o : LibOutcomeOk, memoryUsedMB o = specMemoryDelta o) ∧
    (∀ o : LibOutcomeOk, 0 ≤ memoryUsedMB o) ∧
    (∀ sid refAvailable cfg env v,
      (runSingleTest sid refAvailable cfg env).lazyImage.memoryUsed = some v →
      0 ≤ v) ∧
    (∀ sid refAvailable cfg env v,
      (runSingleTest sid refAvailable cfg env).sharp.memoryUsed = some v →
      0 ≤ v) := by
  have hspec : ∀ o : LibOutcomeOk, memoryUsedMB o = specMemoryDelta o := by
    intro o
    unfold memoryUsedMB specMemoryDelta
    rw [peakHeap_eq]
    rcases le_or_lt o.initialHeapUsed (specPeakHeap o) with h | h
    · rw [max_eq_right h]
    · rw [max_eq_left h.le, sub_self]
      have h2 : ((specPeakHeap o - o.initialHeapUsed : ℤ) : ℚ) / 1024 / 1024 ≤ 0 := by
        have h3 : ((specPeakHeap o - o.initialHeapUsed : ℤ) : ℚ) ≤ 0 := by
          have : (specPeakHeap o - o.initialHeapUsed : ℤ) ≤ 0 := by omega
          exact_mod_cast this
        rw [div_nonpos_iff]
        right
        refine ⟨?_, by norm_num⟩
        rw [div_nonpos_iff]
        right
        exact ⟨h3, by norm_num⟩
      have h4 : roundTo 2 (((specPeakHeap o - o.initialHeapUsed : ℤ) : ℚ) / 1024 / 1024) ≤ 0 :=
        roundTo_nonpos 2 h2
      have h5 : roundTo 2 ((((0 : ℤ)) : ℚ) / 1024 / 1024) = 0 := by
        norm_num [roundTo]
      rw [h5, max_eq_left h4]
      simp
  have hnn : ∀ o : LibOutcomeOk, 0 ≤ memoryUsedMB o := fun o => le_max_left 0 _
  refine ⟨rfl, hspec, hnn, ?_, ?_⟩
  · intro sid refAvailable cfg env v hv
    rcases hl : env.lazyOutcome with o | m <;>
      rcases hbl : cfg.lazyImageSupported && cfg.lazyImageFn.isSome <;>
      simp [runSingleTest, hl, hbl, lazyOkResult, errorResult] at hv
    exact hv ▸ hnn o
  · intro sid refAvailable cfg env v hv
    rcases hs : env.sharpOutcome with o | m <;>
      rcases hbs : cfg.sharpSupported && cfg.sharpFn.isSome <;>
      simp [runSingleTest, hs, hbs, sharpOkResult, errorResult] at hv
    exact hv ▸ hnn o

/-- C7 witness: the concrete successful outcome (pre 0, samples [2 MiB],
post 1 MiB) satisfies the equations, and the value the WebP zero-copy test
records for it is non-negative. -/
theorem C7_witness :
    memoryUsedMB okOutcome = specMemoryDelta okOutcome ∧
    0 ≤ memoryUsedMB okOutcome ∧
    (runSingleTest "s" true testZeroCopyWebP okTestEnv).lazyImage.memoryUsed =
      some (memoryUsedMB okOutcome) ∧
    0 ≤ memoryUsedMB okOutcome := by
  obtain ⟨-, h2, h3, h4, -⟩ := C7_theorem
  exact ⟨h2 okOutcome, h3 okOutcome, rfl,
    h4 "s" true testZeroCopyWebP okTestEnv (memoryUsedMB okOutcome) rfl⟩

/-- C3: every successful library record carries elapsed time, output size and
peak memory delta, and carries the SSIM/PSNR pair exactly when reference raw
data was supplied to the test; the advanced category is run with no
reference data, so its results never carry metrics.  (Amended: the claim as
stated — all four measurement families in every result — fails for the
advanced category and for error records; see `C3_counterexample`.) -/
theorem C3_theorem :
    (∀ sid refAvailable cfg env o,
      env.lazyOutcome = .ok o → cfg.lazyImageSupported = true →
      cfg.lazyImageFn.isSome = true →
      ((runSingleTest sid refAvailable cfg env).lazyImage.time.isSome = true ∧
        (runSingleTest sid refAvailable cfg env).lazyImage.size.isSome = true ∧
        (runSingleTest sid refAvailable cfg env).lazyImage.memoryUsed.isSome = true ∧
        (runSingleTest sid refAvailable cfg env).lazyImage.psnr.isSome = refAvailable ∧
        (runSingleTest sid refAvailable cfg env).lazyImage.ssim.isSome = refAvailable)) ∧
    (∀ sid refAvailable cfg env o,
      env.sharpOutcome = .ok o → cfg.sharpSupported = true →
      cfg.sharpFn.isSome = true →
      ((runSingleTest sid refAvailable cfg env).sharp.time.isSome = true ∧
        (runSingleTest sid refAvailable cfg env).sharp.size.isSome = true ∧
        (runSingleTest sid refAvailable cfg env).sharp.memoryUsed.isSome = true ∧
        (runSingleTest sid refAvailable cfg env).sharp.psnr.isSome = refAvailable ∧
        (runSingleTest sid refAvailable cfg env).sharp.ssim.isSome = refAvailable)) ∧
    (∀ sid e₀ e₁ e₂ e₃ e₄,
      (runAdvancedTests sid e₀ e₁ e₂ e₃ e₄).map (fun r =>
          (r.lazyImage.psnr, r.lazyImage.ssim, r.sharp.psnr, r.sharp.ssim)) =
        List.replicate 5 (none, none, none, none)) ∧
    (∀ env : BenchEnv,
      ((runBenchmark env).categories.get? 2).map Category.results =
        some (runAdvancedTests env.sessionId (env.testEnvs 6) (env.testEnvs 7)
          (env.testEnvs 8) (env.testEnvs 9) (env.testEnvs 10))) := by
  refine ⟨?_, ?_, ?_, fun env => rfl⟩
  · intro sid refAvailable cfg env o h1 h2 h3
    rcases refAvailable <;>
      simp [runSingleTest, h1, h2, h3, lazyOkResult]
  · intro sid refAvailable cfg env o h1 h2 h3
    rcases refAvailable <;>
      simp [runSingleTest, h1, h2, h3, sharpOkResult]
  · intro sid e₀ e₁ e₂ e₃ e₄
    simp only [runAdvancedTests, List.map_cons, List.map_nil,
      runSingleTest_noRef_metrics]
    rfl

/-- C3 witness: in the all-successful concrete run, the WebP zero-copy test
(reference available) records all four families for both libraries. -/
theorem C3_witness :
    ((runSingleTest "s" true testZeroCopyWebP okTestEnv).lazyImage.time.isSome = true ∧
      (runSingleTest "s" true testZeroCopyWebP okTestEnv).lazyImage.size.isSome = true ∧
      (runSingleTest "s" true testZeroCopyWebP okTestEnv).lazyImage.memoryUsed.isSome = true ∧
      (runSingleTest "s" true testZeroCopyWebP okTestEnv).lazyImage.psnr.isSome = true ∧
      (runSingleTest "s" true testZeroCopyWebP okTestEnv).lazyImage.ssim.isSome = true) ∧
    ((runSingleTest "s" true testZeroCopyWebP okTestEnv).sharp.time.isSome = true ∧
      (runSingleTest "s" true testZeroCopyWebP okTestEnv).sharp.size.isSome = true ∧
      (runSingleTest "s" true testZeroCopyWebP okTestEnv).sharp.memoryUsed.isSome = true ∧
      (runSingleTest "s" true testZeroCopyWebP okTestEnv).sharp.psnr.isSome = true ∧
      (runSingleTest "s" true testZeroCopyWebP okTestEnv).sharp.ssim.isSome = true) := by
  obtain ⟨h1, h2, -, -⟩ := C3_theorem
  exact ⟨h1 "s" true testZeroCopyWebP okTestEnv okOutcome rfl rfl rfl,
    h2 "s" true testZeroCopyWebP okTestEnv okOutcome rfl rfl rfl⟩

/-- C3 counterexample: in a run in which every operation succeeds and both
references are available, every sharp call executes (its elapsed time is
present), yet all five advanced-category results lack the SSIM and PSNR
fields — so not every executed operation's result contains all four
measurement families. -/
theorem C3_counterexample :
    ((runBenchmark allOkBenchEnv).categories.map fun c =>
        c.results.map fun r =>
          (r.sharp.time.isSome, r.sharp.psnr.isSome, r.sharp.ssim.isSome)) =
      [[(true, true, true), (true, true, true), (true, true, true)],
        [(true, true, true), (true, true, true), (true, true, true)],
        [(true, false, false), (true, false, false), (true, false, false),
          (true, false, false), (true, false, false)]] := rfl

/-- C2: the SSIM half of the claim holds — the `ssim` field is delegated to
ssim.js: it depends only on the library's output and equals its `mssim` value
to four decimal places.  The PSNR half is amended: the `psnr` field is
computed by this repository's own `calculatePSNR` from the raw pixel arrays
(with `Infinity` reported as 100), not taken from the metrics library, which
returns no PSNR at all; see `C2_counterexample`. -/
theorem C2_theorem :
    (∀ (rd td rd' td' : List ℚ) (o : SsimOut),
      (calculateMetrics rd td o).ssim = (calculateMetrics rd' td' o).ssim) ∧
    (∀ (rd td : List ℚ) (o : SsimOut),
      (calculateMetrics rd td o).ssim = roundTo 4 o.mssim) ∧
    (∀ (rd td : List ℚ) (o : SsimOut),
      (calculateMetrics rd td o).psnr =
        jsPsnrReport (calculatePSNR (some rd) (some td))) := by
  refine ⟨fun rd td rd' td' o => rfl, fun rd td o => rfl, ?_⟩
  intro rd td o
  cases h : calculatePSNR (some rd) (some td) <;>
    simp [calculateMetrics, jsPsnrReport, h]

/-- C2 counterexample: with the ssim.js output held fixed at `mssim = 1/2`,
two different target arrays give `psnr` fields 100 and 0 — the `psnr` field
varies while the metrics library's output does not, so it is not that
library's output but a value computed by the repository's own
`calculatePSNR`. -/
theorem C2_counterexample :
    (calculateMetrics [0] [0] ⟨1 / 2⟩).psnr = JSNum.num 100 ∧
    (calculateMetrics [0] [0, 0] ⟨1 / 2⟩).psnr = JSNum.num 0 ∧
    JSNum.num 100 ≠ JSNum.num 0 := by
  refine ⟨?_, ?_, ?_⟩
  · have h : calculatePSNR (some [(0 : ℚ)]) (some [0]) = .posInf :=
      calculatePSNR_self [0] (by decide)
    simp [calculateMetrics, h]
  · have h : calculatePSNR (some [(0 : ℚ)]) (some [0, 0]) = .num 0 := by
      rw [calculatePSNR_eq, if_pos (by decide)]
    simp only [calculateMetrics, h]
    norm_num [roundToR]
  · intro h
    rw [JSNum.num.injEq] at h
    norm_num at h

/-- C8: `calculatePSNR` returns 0 when either array is missing or the lengths
differ; on identical nonempty arrays (zero mean squared error) it returns
`Infinity`, which `calculateMetrics` reports as 100; and otherwise it returns
`20 * log10(255 / sqrt(MSE))` over the per-element squared differences.
(Amended with "nonempty": on two empty arrays the JavaScript MSE is
`0/0 = NaN`, so the result is `NaN`, not `Infinity`; see
`C8_counterexample`.) -/
theorem C8_theorem :
    (∀ td, calculatePSNR none td = .num 0) ∧
    (∀ rd, calculatePSNR rd none = .num 0) ∧
    (∀ rd td : List ℚ, rd.length ≠ td.length →
      calculatePSNR (some rd) (some td) = .num 0) ∧
    (∀ rd : List ℚ, rd ≠ [] →
      calculatePSNR (some rd) (some rd) = .posInf) ∧
    (∀ (rd : List ℚ) (o : SsimOut), rd ≠ [] →
      (calculateMetrics rd rd o).psnr = .num 100) ∧
    (∀ rd td : List ℚ, rd.length = td.length → rd ≠ [] → mse rd td ≠ 0 →
      calculatePSNR (some rd) (some td) = .num (psnrFormula (mse rd td))) := by
  refine ⟨?_, ?_, ?_, calculatePSNR_self, ?_, ?_⟩
  · intro td; cases td <;> rfl
  · intro rd; cases rd <;> rfl
  · intro rd td h
    rw [calculatePSNR_eq, if_pos h]
  · intro rd o h
    simp [calculateMetrics, calculatePSNR_self rd h]
  · intro rd td h1 h2 h3
    rw [calculatePSNR_eq, if_neg (by simp [h1]),
      if_neg (by simpa [List.length_eq_zero] using h2), if_neg h3]

/-- C8 counterexample: two empty arrays are equal-length and identical, yet
`calculatePSNR` returns `NaN` (the JavaScript MSE is `0/0 = NaN`), not
`Infinity`. -/
theorem C8_counterexample :
    calculatePSNR (some ([] : List ℚ)) (some []) = JSNum.nan ∧
    JSNum.nan ≠ JSNum.posInf := by
  refine ⟨?_, fun h => JSNum.noConfusion h⟩
  rw [calculatePSNR_eq, if_neg (by simp)]
  simp

/-- C8 witness: the edge cases at concrete inputs — a missing reference, a
length mismatch, identical nonempty arrays (reported as 100 by
`calculateMetrics`), and a genuine finite PSNR. -/
theorem C8_witness :
    calculatePSNR none (some [(3 : ℚ)]) = JSNum.num 0 ∧
    ([(1 : ℚ)].length ≠ [(1 : ℚ), 2].length ∧
      calculatePSNR (some [(1 : ℚ)]) (some [1, 2]) = JSNum.num 0) ∧
    ([(2 : ℚ), 3] ≠ ([] : List ℚ) ∧
      calculatePSNR (some [(2 : ℚ), 3]) (some [2, 3]) = JSNum.posInf) ∧
    (calculateMetrics [(2 : ℚ), 3] [2, 3] ⟨1 / 2⟩).psnr = JSNum.num 100 ∧
    (mse [(0 : ℚ)] [1] ≠ 0 ∧
      calculatePSNR (some [(0 : ℚ)]) (some [1]) =
        JSNum.num (psnrFormula (mse [0] [1]))) := by
  obtain ⟨h1, -, h3, h4, h5, h6⟩ := C8_theorem
  exact ⟨h1 (some [3]),
    ⟨by decide, h3 _ _ (by decide)⟩,
    ⟨by decide, h4 _ (by decide)⟩,
    h5 _ ⟨1 / 2⟩ (by decide),
    ⟨by norm_num [mse], h6 _ _ (by decide) (by decide) (by norm_num [mse])⟩⟩

/-- `multerSingleImage` stores a file exactly when the request carries that
single file on the `image` field, with an allowed MIME type and a size within
the limit. -/
theorem multer_ok_iff (files : List UploadFile) (f : UploadFile) :
    multerSingleImage files = .ok (some f) ↔
      files = [f] ∧ f.fieldname = "image" ∧ f.mimetype ∈ allowedTypes ∧
        f.size ≤ fileSizeLimit := by
  cases files with
  | nil =>
      constructor
      · intro h
        exact Option.noConfusion (MulterOutcome.ok.inj h)
      · rintro ⟨h, -⟩
        exact List.noConfusion h
  | cons g rest =>
      constructor
      · intro h
        simp only [multerSingleImage] at h
        by_cases h1 : g.fieldname ≠ "image"
        · rw [if_pos h1] at h
          exact MulterOutcome.noConfusion h
        rw [if_neg h1] at h
        by_cases h2 : ¬ g.mimetype ∈ allowedTypes
        · rw [if_pos h2] at h
          exact MulterOutcome.noConfusion h
        rw [if_neg h2] at h
        by_cases h3 : fileSizeLimit < g.size
        · rw [if_pos h3] at h
          exact MulterOutcome.noConfusion h
        rw [if_neg h3] at h
        cases rest with
        | nil =>
            obtain rfl : g = f := Option.some.inj (MulterOutcome.ok.inj h)
            exact ⟨rfl, not_not.mp h1, not_not.mp h2, le_of_not_lt h3⟩
        | cons g' rest' => exact MulterOutcome.noConfusion h
      · rintro ⟨heq, hfield, hmime, hsize⟩
        obtain ⟨rfl, rfl⟩ : g = f ∧ rest = [] := by
          injection heq with ha hb
          exact ⟨ha, hb⟩
        simp only [multerSingleImage]
        rw [if_neg (by simp [hfield]), if_neg (by simp [hmime]),
          if_neg (not_lt.mpr hsize)]

/-- C9: the upload endpoint runs the benchmark exactly when a single file on
the `image` field with an allowed MIME type and a size within 10 GiB is
supplied; a missing file gets 400 "No image uploaded"; an allowed-type file
over the limit gets 413; and a disallowed MIME type gets 400 with the
invalid-type message.  (Amended: a disallowed MIME type gets 400 regardless
of size — the file filter runs before the size limit — so an oversize file
of a disallowed type is answered with 400, not 413; see
`C9_counterexample`.) -/
theorem C9_theorem :
    (∀ (files : List UploadFile) (f : UploadFile),
      benchmarkEndpoint files = .benchmarkRun f ↔
        files = [f] ∧ f.fieldname = "image" ∧ f.mimetype ∈ allowedTypes ∧
          f.size ≤ fileSizeLimit) ∧
    (benchmarkEndpoint [] = .jsonError 400 "No image uploaded") ∧
    (∀ f : UploadFile, f.fieldname = "image" → f.mimetype ∈ allowedTypes →
      fileSizeLimit < f.size →
      benchmarkEndpoint [f] =
        .jsonError 413 "File size too large. Maximum size is 10GB.") ∧
    (∀ f : UploadFile, f.fieldname = "image" → ¬ f.mimetype ∈ allowedTypes →
      benchmarkEndpoint [f] = .jsonError 400 invalidTypeMsg) := by
  refine ⟨?_, rfl, ?_, ?_⟩
  · intro files f
    rw [← multer_ok_iff]
    unfold benchmarkEndpoint
    cases h : multerSingleImage files with
    | ok of =>
        cases of with
        | none => simp
        | some g => simp [EndpointResponse.benchmarkRun.injEq,
            MulterOutcome.ok.injEq, Option.some.injEq]
    | filterError m => simp
    | limitFileSize => simp
    | limitUnexpectedFile => simp
  · intro f hfield hmime hsize
    have hm : multerSingleImage [f] = .limitFileSize := by
      simp only [multerSingleImage]
      rw [if_neg (by simp [hfield]), if_neg (by simp [hmime]), if_pos hsize]
    simp [benchmarkEndpoint, hm]
  · intro f hfield hmime
    have hm : multerSingleImage [f] = .filterError invalidTypeMsg := by
      simp only [multerSingleImage]
      rw [if_neg (by simp [hfield]), if_pos hmime]
    simp [benchmarkEndpoint, hm]

/-- C9 witness: a single 1000-byte PNG runs the benchmark; an empty request is
answered 400; a 10 GiB + 1 PNG is answered 413; a small text/plain file is
answered 400 with the invalid-type message. -/
theorem C9_witness :
    benchmarkEndpoint [{ fieldname := "image", mimetype := "image/png", size := 1000 }] =
      .benchmarkRun { fieldname := "image", mimetype := "image/png", size := 1000 } ∧
    benchmarkEndpoint [] = .jsonError 400 "No image uploaded" ∧
    benchmarkEndpoint [{ fieldname := "image", mimetype := "image/png", size := fileSizeLimit + 1 }] =
      .jsonError 413 "File size too large. Maximum size is 10GB." ∧
    benchmarkEndpoint [{ fieldname := "image", mimetype := "text/plain", size := 5 }] =
      .jsonError 400 invalidTypeMsg := by
  obtain ⟨h1, h2, h3, h4⟩ := C9_theorem
  exact ⟨(h1 _ _).mpr ⟨rfl, rfl, by decide, by norm_num [fileSizeLimit]⟩, h2,
    h3 _ rfl (by decide) (by norm_num [fileSizeLimit]),
    h4 _ rfl (by decide)⟩

/-- C9 counterexample: a file that both exceeds the size limit and has a
disallowed MIME type is answered 400 with the invalid-type message, not 413 —
the claim's "HTTP 413 when the file exceeds the size limit" does not hold
for such a file. -/
theorem C9_counterexample :
    benchmarkEndpoint
        [{ fieldname := "image", mimetype := "text/plain", size := fileSizeLimit + 1 }] =
      .jsonError 400 invalidTypeMsg ∧
    fileSizeLimit <
      ({ fieldname := "image", mimetype := "text/plain", size := fileSizeLimit + 1 } : UploadFile).size ∧
    EndpointResponse.jsonError 400 invalidTypeMsg ≠
      .jsonError 413 "File size too large. Maximum size is 10GB." := by
  refine ⟨?_, by norm_num [fileSizeLimit], by decide⟩
  have hm : multerSingleImage
      [{ fieldname := "image", mimetype := "text/plain", size := fileSizeLimit + 1 }] =
      .filterError invalidTypeMsg := by
    simp only [multerSingleImage]
    rw [if_neg (by simp), if_pos (by decide)]
  simp [benchmarkEndpoint, hm]

/-- C10: the frontend memory formatter is total and never displays a negative
quantity — `-` for `null`/`NaN` input, negative numbers treated as 0
(rendering `< 0.1 KB`), KB below 0.1 MB, MB below 1024 MB, GB at or above
1024 MB, and every displayed quantity non-negative. -/
theorem C10_theorem :
    formatMemory .null = .dash ∧
    formatMemory .nan = .dash ∧
    (∀ m : ℚ, m < 0 → formatMemory (.num m) = formatMemory (.num 0)) ∧
    formatMemory (.num 0) = .subTenthKB ∧
    (∀ m : ℚ, 1 / 10000 ≤ m → m < 1 / 10 →
      formatMemory (.num m) = .kb (roundTo 1 (max (1 / 10) (m * 1024)))) ∧
    (∀ m : ℚ, 1 / 10 ≤ m → m < 1024 →
      formatMemory (.num m) = .mb (roundTo 2 m)) ∧
    (∀ m : ℚ, 1024 ≤ m → formatMemory (.num m) = .gb (roundTo 2 (m / 1024))) ∧
    (∀ inp : MemInput, (formatMemory inp).nonNeg) := by
  have hmax : ∀ m : ℚ, 0 ≤ m → max 0 m = m := fun m hm => max_eq_right hm
  refine ⟨rfl, rfl, ?_, by norm_num [formatMemory], ?_, ?_, ?_, ?_⟩
  · intro m hm
    have h0 : max 0 m = 0 := max_eq_left hm.le
    norm_num [formatMemory, h0]
  · intro m h1 h2
    have h0 : max 0 m = m := hmax m (le_trans (by norm_num) h1)
    simp only [formatMemory, h0]
    rw [if_neg (by linarith), if_pos h2]
  · intro m h1 h2
    have h0 : max 0 m = m := hmax m (le_trans (by norm_num) h1)
    simp only [formatMemory, h0]
    rw [if_neg (by linarith), if_neg (by linarith), if_pos h2]
  · intro m h1
    have h0 : max 0 m = m := hmax m (le_trans (by norm_num) h1)
    simp only [formatMemory, h0]
    rw [if_neg (by linarith), if_neg (by linarith), if_neg (not_lt.mpr h1)]
  · intro inp
    cases inp with
    | null => trivial
    | nan => trivial
    | num m =>
        simp only [formatMemory]
        split_ifs with h1 h2 h3
        · trivial
        · exact roundTo_nonneg 1 (le_trans (by norm_num) (le_max_left _ _))
        · exact roundTo_nonneg 2 (le_max_left 0 m)
        · exact roundTo_nonneg 2 (div_nonneg (le_max_left 0 m) (by norm_num))

/-- C10 witness: concrete inputs exercise every branch — a negative value
renders like 0, 0.01 MB renders in KB, 5 MB in MB, 2048 MB in GB, and the
negative input's rendering is non-negative. -/
theorem C10_witness :
    ((-5 : ℚ) < 0 ∧ formatMemory (.num (-5)) = formatMemory (.num 0)) ∧
    ((1 / 10000 : ℚ) ≤ 1 / 100 ∧ (1 / 100 : ℚ) < 1 / 10 ∧
      formatMemory (.num (1 / 100)) =
        .kb (roundTo 1 (max (1 / 10) (1 / 100 * 1024)))) ∧
    ((1 / 10 : ℚ) ≤ 5 ∧ (5 : ℚ) < 1024 ∧
      formatMemory (.num 5) = .mb (roundTo 2 5)) ∧
    ((1024 : ℚ) ≤ 2048 ∧
      formatMemory (.num 2048) = .gb (roundTo 2 (2048 / 1024))) ∧
    (formatMemory (.num (-5))).nonNeg := by
  obtain ⟨-, -, h3, -, h5, h6, h7, h8⟩ := C10_theorem
  exact ⟨⟨by norm_num, h3 (-5) (by norm_num)⟩,
    ⟨by norm_num, by norm_num, h5 (1 / 100) (by norm_num) (by norm_num)⟩,
    ⟨by norm_num, by norm_num, h6 5 (by norm_num) (by norm_num)⟩,
    ⟨by norm_num, h7 2048 (by norm_num)⟩,
    h8 (.num (-5))⟩

end LazyImageBench
